import Mathlib

/-!
Verification of the Tesla-Wrap-Studio editor core: the layer data model,
the transform synchronizer (drag / resize gesture handlers of
`EditorCanvas`), the line endpoint handles, the mask-aware compositor,
the project serializer (`projectToBlob`), the export capture
(`exportPngAsDataUrl`) and the publish pipeline (`publishDesign`).

Numbers of the source (JavaScript numbers) are modelled as rationals;
strings as Lean strings; optional object fields as `Option`.
-/

namespace WrapStudio

/-- The JavaScript `a || b` idiom on numbers: `0` is falsy, every other
number picks itself. -/
def jsOr (v d : ℚ) : ℚ := if v = 0 then d else v

/-- The kind tag of a layer (`layer.type` in the source). -/
inductive LayerKind where
  | text | image | texture | brush | line | star | rect | circle | fill
deriving DecidableEq, Repr

/-- A layer of the editor store.  Common transform / visibility fields are
total (the store always supplies defaults); kind-specific fields are
`Option`, mirroring the optional fields of the TypeScript union. -/
structure Layer where
  id : String
  type : LayerKind
  name : String
  visible : Bool
  locked : Bool
  opacity : ℚ
  x : ℚ
  y : ℚ
  rotation : ℚ
  scaleX : ℚ
  scaleY : ℚ
  width : Option ℚ
  height : Option ℚ
  cornerRadius : Option ℚ
  radius : Option ℚ
  numPoints : Option ℚ
  innerRadius : Option ℚ
  outerRadius : Option ℚ
  points : Option (List ℚ)
  text : Option String
  fontSize : Option ℚ
  fill : Option String
  stroke : Option String
  strokeWidth : Option ℚ
  src : Option String
  fillImageDataUrl : Option String
deriving DecidableEq, Repr

/-- A partial update handed to the store (the object literal passed to
`updateLayer(layerId, {...})`): only the fields present in the literal. -/
structure LayerUpdate where
  x : Option ℚ := none
  y : Option ℚ := none
  rotation : Option ℚ := none
  scaleX : Option ℚ := none
  scaleY : Option ℚ := none
  width : Option ℚ := none
  height : Option ℚ := none
  points : Option (List ℚ) := none
deriving DecidableEq, Repr

/-- Modelled from the spec: the store operation `updateLayer` of
`useEditorStore` (the store module is not among the available sources; per
spec section 9 all mutation is funnelled through named operations applying
exactly the provided fields).  A partial update overwrites exactly the
fields present in the update object and leaves every other field of the
layer unchanged. -/
def applyUpdate (l : Layer) (u : LayerUpdate) : Layer :=
  { l with
    x := u.x.getD l.x
    y := u.y.getD l.y
    rotation := u.rotation.getD l.rotation
    scaleX := u.scaleX.getD l.scaleX
    scaleY := u.scaleY.getD l.scaleY
    width := match u.width with | some w => some w | none => l.width
    height := match u.height with | some h => some h | none => l.height
    points := match u.points with | some p => some p | none => l.points }

/-! ### Transform synchronizer (`EditorCanvas`, handlers at part_001) -/

/-- The gesture-start snapshot stored in `transformStartDataRef.current`
by `handleTransformStart`: the layer's width/height (possibly `undefined`
for kinds without them) and its scale with the `|| 1` fallback. -/
structure TransformStartData where
  layerId : String
  width : Option ℚ
  height : Option ℚ
  scaleX : ℚ
  scaleY : ℚ
deriving DecidableEq, Repr

/-- `handleTransformStart`: snapshot the layer's current dimensions and
scale (`layer.scaleX || 1`, `layer.scaleY || 1`). -/
def handleTransformStart (l : Layer) : TransformStartData :=
  { layerId := l.id
    width := l.width
    height := l.height
    scaleX := jsOr l.scaleX 1
    scaleY := jsOr l.scaleY 1 }

/-- The state the Konva node reports at the end of a gesture
(`node.x()`, `node.y()`, `node.rotation()`, `node.scaleX()`,
`node.scaleY()`). -/
structure NodeState where
  x : ℚ
  y : ℚ
  rotation : ℚ
  scaleX : ℚ
  scaleY : ℚ
deriving DecidableEq, Repr

/-- The else-branch of `handleTransformEnd`: persist the node's position,
rotation and raw scale. -/
def scaleUpdate (node : NodeState) : LayerUpdate :=
  { x := some node.x
    y := some node.y
    rotation := some node.rotation
    scaleX := some node.scaleX
    scaleY := some node.scaleY }

/-- `handleTransformEnd`: for `rect` layers with a gesture snapshot,
recompute absolute width/height as
`Math.abs(original * (node.scale / originalScale))` and reset scale to 1;
for every other case persist the reported scale verbatim. -/
def handleTransformEnd (l : Layer) (snap : Option TransformStartData)
    (node : NodeState) : LayerUpdate :=
  if l.type = LayerKind.rect then
    match snap with
    | some startData =>
        let originalWidth := startData.width.getD 0
        let originalHeight := startData.height.getD 0
        let newWidth := |originalWidth * (node.scaleX / startData.scaleX)|
        let newHeight := |originalHeight * (node.scaleY / startData.scaleY)|
        { x := some node.x
          y := some node.y
          rotation := some node.rotation
          width := some newWidth
          height := some newHeight
          scaleX := some 1
          scaleY := some 1 }
    | none => scaleUpdate node
  else scaleUpdate node

/-- `handleDragEnd`: persist exactly the node's final position. -/
def handleDragEnd (node : NodeState) : LayerUpdate :=
  { x := some node.x, y := some node.y }

/-! ### Line endpoint handles (`LineEndpointHandles`, part_001) -/

/-- The `handleDragMove` of the start-point handle: bail out unless the
layer is a line; otherwise convert the handle's absolute position back to
a relative point pair (`absolute - layer position`) and persist it as
indices 0 and 1, copying the current indices 2 and 3. -/
def startHandleDragMove (l : Layer) (hx hy : ℚ) : Option LayerUpdate :=
  if l.type = LayerKind.line then
    let currentLayerX := jsOr l.x 0
    let currentLayerY := jsOr l.y 0
    let currentPoints := l.points.getD [0, 0, 0, 0]
    let newPointX := hx - currentLayerX
    let newPointY := hy - currentLayerY
    some { points := some [newPointX, newPointY,
                           currentPoints.getD 2 0, currentPoints.getD 3 0] }
  else none

/-- The `handleDragMove` of the end-point handle: symmetric to the start
handle, persisting indices 2 and 3 and copying indices 0 and 1. -/
def endHandleDragMove (l : Layer) (hx hy : ℚ) : Option LayerUpdate :=
  if l.type = LayerKind.line then
    let currentLayerX := jsOr l.x 0
    let currentLayerY := jsOr l.y 0
    let currentPoints := l.points.getD [0, 0, 0, 0]
    let newPointX := hx - currentLayerX
    let newPointY := hy - currentLayerY
    some { points := some [currentPoints.getD 0 0, currentPoints.getD 1 0,
                           newPointX, newPointY] }
  else none

/-! ### Canvas compositor (`EditorCanvas`, render tree at part_001) -/

/-- A project as held by the editor store and serialized by
`projectToBlob` (`ProjectFile`): name, timestamps, template model id,
base color and the ordered (most-recent-first) layer list. -/
structure ProjectFile where
  version : String
  name : String
  createdAt : String
  modelId : String
  baseColor : String
  layers : List Layer
deriving DecidableEq, Repr

/-- One drawing step of the composited stage, in paint order. -/
inductive DrawOp where
  | baseFill (color : String)
  | maskTemplate
  | drawLayer (l : Layer)
deriving DecidableEq, Repr

/-- The layer-draw sequence of the compositor:
`[...layers].reverse().map(...)` — a reversed copy of the stored list,
one draw per layer, oldest first. -/
def renderLayerOps (layers : List Layer) : List DrawOp :=
  layers.reverse.map DrawOp.drawLayer

/-- The full paint sequence of the stage's single Konva layer: base-color
rect, template mask (destination-in), the reversed layer stack, template
mask again (destination-in). -/
def compositeOps (p : ProjectFile) : List DrawOp :=
  [DrawOp.baseFill p.baseColor, DrawOp.maskTemplate]
    ++ renderLayerOps p.layers ++ [DrawOp.maskTemplate]

/-- A pixel with premultipliable color channels and an alpha channel. -/
structure RGBA where
  r : ℚ
  g : ℚ
  b : ℚ
  a : ℚ
deriving DecidableEq, Repr

/-- The fully transparent pixel of an empty canvas. -/
def clearPixel : RGBA := { r := 0, g := 0, b := 0, a := 0 }

/-- Canvas `destination-in` compositing at one pixel: the destination
keeps its color but its alpha is gated by the source's alpha. -/
def destIn (dst : RGBA) (srcAlpha : ℚ) : RGBA :=
  { dst with a := dst.a * srcAlpha }

/-- Canvas `source-over` compositing at one pixel (the default layer
blend): the resulting alpha is `sa + da * (1 - sa)`. -/
def srcOver (src dst : RGBA) : RGBA :=
  { r := src.r + dst.r * (1 - src.a)
    g := src.g + dst.g * (1 - src.a)
    b := src.b + dst.b * (1 - src.a)
    a := src.a + dst.a * (1 - src.a) }

/-- A stage coordinate (the canvas is the 1024 by 1024 template extent). -/
def Point : Type := ℚ × ℚ

/-- The group of design layers: each layer rasterized by the renderer
`draw` (Konva's per-kind drawing, a parameter of the model), painted
back-to-front over a clear canvas in reverse-of-stored order, then masked
by the template alpha with `destination-in`. -/
def renderMaskedStack (draw : Layer → Point → RGBA) (layers : List Layer)
    (tmplAlpha : Point → ℚ) (pt : Point) : RGBA :=
  let stack := layers.reverse.foldl (fun acc l => srcOver (draw l pt) acc) clearPixel
  destIn stack (tmplAlpha pt)

/-- The base-color group: a full-canvas rect of the base color, masked by
the template alpha with `destination-in`. -/
def renderMaskedBase (baseColor : RGBA) (tmplAlpha : Point → ℚ)
    (pt : Point) : RGBA :=
  destIn baseColor (tmplAlpha pt)

/-- The composited stage pixel: the masked layer stack painted
source-over on the masked base fill. -/
def compositePixel (draw : Layer → Point → RGBA) (p : ProjectFile)
    (baseColor : RGBA) (tmplAlpha : Point → ℚ) (pt : Point) : RGBA :=
  srcOver (renderMaskedStack draw p.layers tmplAlpha pt)
          (renderMaskedBase baseColor tmplAlpha pt)

/-! ### Export capture (`exportPngAsDataUrl`, part_004) -/

/-- A Konva node of the stage, as far as the export capture inspects it:
class name, listening flag, visibility, and the class names of its
children. -/
structure KNode where
  className : String
  listening : Bool
  visible : Bool
  childClasses : List String
deriving DecidableEq, Repr

/-- The brush-cursor detection of `exportPngAsDataUrl`: a `Group` with
`listening() === false` whose children include a `Circle` and number at
least two. -/
def isBrushCursorGroup (n : KNode) : Bool :=
  n.className = "Group" && n.listening = false
    && n.childClasses.contains "Circle" && decide (2 ≤ n.childClasses.length)

/-- Whether the node at index `i` is hidden before capture: the first
`Transformer` found (`stage.findOne`) or any brush-cursor group
(`stage.find('Group')` filtered). -/
def hiddenForExport (stage : List KNode) (i : ℕ) (n : KNode) : Bool :=
  (stage.findIdx? (fun m => m.className = "Transformer") = some i)
    || isBrushCursorGroup n

/-- The raster capture: the pixel ratio and mime type passed to
`stage.toDataURL`, together with the stage state the raster is taken
from. -/
structure Capture where
  pixelRatio : ℚ
  mimeType : String
  stage : List KNode
deriving DecidableEq, Repr

/-- Set `visible(false)` on every node that the capture hides
(`elementsToHide`), walking the stage from index `i`. -/
def hideFrom (P : ℕ → KNode → Bool) : ℕ → List KNode → List KNode
  | _, [] => []
  | i, n :: rest =>
      (if P i n then { n with visible := false } else n) :: hideFrom P (i + 1) rest

/-- Restore each hidden node's recorded `wasVisible`: walk the captured
stage next to the original one and put back the original visibility on
exactly the nodes the capture hid. -/
def restoreFrom (P : ℕ → KNode → Bool) : ℕ → List KNode → List KNode → List KNode
  | _, [], _ => []
  | _, h :: _, [] => [h]
  | i, h :: hrest, o :: orest =>
      (if P i o then { h with visible := o.visible } else h)
        :: restoreFrom P (i + 1) hrest orest

/-- `exportPngAsDataUrl` on a non-null stage: hide the transformer and
every brush-cursor group, redraw, capture with
`{ pixelRatio: 1, mimeType: 'image/png' }`, then restore each hidden
node's recorded visibility and redraw again.  Returns the capture and the
final stage handed back to the editor. -/
def exportPngAsDataUrl (stage : List KNode) : Capture × List KNode :=
  let hidden := hideFrom (hiddenForExport stage) 0 stage
  let cap : Capture := { pixelRatio := 1, mimeType := "image/png", stage := hidden }
  (cap, restoreFrom (hiddenForExport stage) 0 hidden stage)

/-! ### Project serializer (`projectToBlob`, part_004) -/

/-- The value of one base64 alphabet character (`atob` input). -/
def b64Val (c : Char) : ℕ :=
  if ('A' ≤ c ∧ c ≤ 'Z') then c.toNat - 65
  else if ('a' ≤ c ∧ c ≤ 'z') then c.toNat - 97 + 26
  else if ('0' ≤ c ∧ c ≤ '9') then c.toNat - 48 + 52
  else if c = '+' then 62
  else if c = '/' then 63
  else 0

/-- Decode one base64 quantum of four characters into one to three
bytes, honouring trailing padding. -/
def b64Chunk (a b c d : Char) : List ℕ :=
  let n := b64Val a * 262144 + b64Val b * 4096 + b64Val c * 64 + b64Val d
  let bytes := [n / 65536 % 256, n / 256 % 256, n % 256]
  if d = '=' then (if c = '=' then bytes.take 1 else bytes.take 2) else bytes

/-- The browser's `atob` followed by `charCodeAt` on each position:
base64 text to a byte list. -/
def atobBytes : List Char → List ℕ
  | a :: b :: c :: d :: rest => b64Chunk a b c d ++ atobBytes rest
  | _ => []

/-- The helper `dataUrlToUint8Array` of `projectToBlob`: take the text
after the first comma (`dataUrl.split(',')[1]`), base64-decode it and
collect the bytes. -/
def dataUrlToUint8Array (dataUrl : String) : List ℕ :=
  atobBytes ((dataUrl.splitOn ",").getD 1 "").data

/-- The `startsWith` test of JavaScript strings, character by character
(`String.startsWith` of the library does not reduce, so the prefix test
is spelled out on the character lists). -/
def strStartsWith (s pre : String) : Bool :=
  pre.data.isPrefixOf s.data

/-- Whether an image/texture layer's `src` is embedded raster data: the
field is a truthy string starting with `data:`. -/
def srcEmbedded (l : Layer) : Bool :=
  (l.type = LayerKind.image || l.type = LayerKind.texture)
    && (match l.src with
        | some s => s ≠ "" && strStartsWith s "data:"
        | none => false)

/-- Whether a fill layer's `fillImageDataUrl` is embedded raster data. -/
def fillEmbedded (l : Layer) : Bool :=
  l.type = LayerKind.fill
    && (match l.fillImageDataUrl with
        | some s => s ≠ "" && strStartsWith s "data:"
        | none => false)

/-- The archive path generated for an image/texture layer's raster. -/
def srcFilename (l : Layer) : String := "images/" ++ l.id ++ ".png"

/-- The archive path generated for a fill layer's raster. -/
def fillFilename (l : Layer) : String := "images/fill-" ++ l.id ++ ".png"

/-- The per-layer body of `project.layers.map` in `projectToBlob`: a
shallow copy of the layer whose `src` (image/texture) or
`fillImageDataUrl` (fill) is replaced by the generated relative path
when, and only when, it holds a `data:` URL. -/
def cleanLayer (l : Layer) : Layer :=
  let l1 := if srcEmbedded l then { l with src := some (srcFilename l) } else l
  if fillEmbedded l then { l1 with fillImageDataUrl := some (fillFilename l1) } else l1

/-- One raster extracted from a layer, queued for the `images/` folder. -/
structure ExtractedImage where
  layerId : String
  dataUrl : String
  filename : String
deriving DecidableEq, Repr

/-- The `images` list `projectToBlob` accumulates while mapping over the
layers: one entry per embedded raster, in layer order (a layer that is
both cannot occur, but image/texture contributes via `src` and fill via
`fillImageDataUrl`). -/
def extractImages (layers : List Layer) : List ExtractedImage :=
  layers.flatMap (fun l =>
    (if srcEmbedded l then
      [{ layerId := l.id, dataUrl := l.src.getD "", filename := srcFilename l }]
     else [])
    ++
    (if fillEmbedded l then
      [{ layerId := l.id, dataUrl := l.fillImageDataUrl.getD "",
         filename := fillFilename l }]
     else []))

/-- The manifest written as `manifest.json`. -/
structure Manifest where
  version : String
  name : String
  createdAt : String
  modifiedAt : String
  modelId : String
  baseColor : String
  layers : List Layer
deriving DecidableEq, Repr

/-- Adding a file to a JSZip folder: a file of the same name is
replaced, otherwise the file is appended. -/
def zipAddFile (files : List (String × List ℕ)) (name : String)
    (bytes : List ℕ) : List (String × List ℕ) :=
  if files.any (fun f => f.1 = name) then
    files.map (fun f => if f.1 = name then (name, bytes) else f)
  else files ++ [(name, bytes)]

/-- The produced archive: the manifest plus the `images/` directory of
binary files (path, bytes). -/
structure Archive where
  manifest : Manifest
  imageFiles : List (String × List ℕ)
deriving DecidableEq, Repr

/-- `projectToBlob` (pure content view): map every layer through
`cleanLayer`, build the manifest around the cleaned list, then write each
queued raster — base64-decoded — into the `images/` folder under its
generated path.  `modifiedAt` is the wall clock at serialization time,
passed in as `now`. -/
def projectToBlob (project : ProjectFile) (now : String) : Archive :=
  let cleanedLayers := project.layers.map cleanLayer
  let manifest : Manifest :=
    { version := "2.0"
      name := project.name
      createdAt := project.createdAt
      modifiedAt := now
      modelId := project.modelId
      baseColor := project.baseColor
      layers := cleanedLayers }
  let images := extractImages project.layers
  let imageFiles := images.foldl
    (fun files img => zipAddFile files img.filename (dataUrlToUint8Array img.dataUrl))
    []
  { manifest := manifest, imageFiles := imageFiles }

/-! ### Heap view of `projectToBlob` (for its frame property)

`projectToBlob` begins each iteration with `const cleanLayer = {...layer}`
— a shallow copy — and assigns `cleanLayer.src` / `cleanLayer.fillImageDataUrl`
on the copy only.  To state that the caller's layer objects are untouched
we model object identity explicitly: a heap is a list of layer objects
addressed by index, the project's layer array is a list of addresses, and
each loop iteration allocates a fresh copy at the end of the heap and
performs the path substitution there. -/

/-- A placeholder object for a dangling address (never hit by a
well-formed project). -/
def defaultLayer : Layer :=
  { id := "", type := LayerKind.text, name := "", visible := true
    locked := false, opacity := 1, x := 0, y := 0, rotation := 0
    scaleX := 1, scaleY := 1, width := none, height := none
    cornerRadius := none, radius := none, numPoints := none
    innerRadius := none, outerRadius := none, points := none
    text := none, fontSize := none, fill := none, stroke := none
    strokeWidth := none, src := none, fillImageDataUrl := none }

/-- The layer mapping of `projectToBlob`, run against the heap: for each
layer address read the object, allocate a shallow copy, substitute the
raster paths on the copy, and collect the copy's address.  Returns the
final heap and the addresses of the manifest's layer entries. -/
def projectToBlobAlloc : List Layer → List ℕ → List Layer × List ℕ
  | heap, [] => (heap, [])
  | heap, addr :: rest =>
      let l := heap.getD addr defaultLayer
      let copy := cleanLayer l
      let heap1 := heap ++ [copy]
      let out := projectToBlobAlloc heap1 rest
      (out.1, heap.length :: out.2)

/-! ### Publish pipeline (`publishDesign`, part_004) -/

/-- The outcome environment of one `publishDesign` run: whether the
supabase client is configured, the freshly generated UUID, and the
result of each asynchronous step (an error value where the collaborator
failed).  `fetchPreview` covers the `fetch`/`blob` conversion of the
preview data URL, which throws on failure and is caught by the
surrounding `try`. -/
structure PublishEnv where
  supabaseConfigured : Bool
  uuid : String
  fetchPreviewThrows : Option String
  previewUploadError : Option String
  projectUploadError : Option String
  publicUrl : String
  dbInsertError : Option String
deriving DecidableEq, Repr

/-- The value `publishDesign` resolves with. -/
structure PublishResult where
  designId : String
  error : Option String
deriving DecidableEq, Repr

/-- `publishDesign`: return an error result when the storage client is
not configured; otherwise run upload preview, upload project file and
insert the design row in order, returning the first collaborator error
with an empty design id; a thrown exception is caught and returned the
same way; on success return the generated id with a null error. -/
def publishDesign (env : PublishEnv) : PublishResult :=
  if !env.supabaseConfigured then
    { designId := "", error := some "Supabase not configured" }
  else
    match env.fetchPreviewThrows with
    | some e => { designId := "", error := some e }
    | none =>
      match env.previewUploadError with
      | some e => { designId := "", error := some e }
      | none =>
        match env.projectUploadError with
        | some e => { designId := "", error := some e }
        | none =>
          match env.dbInsertError with
          | some e => { designId := "", error := some e }
          | none => { designId := env.uuid, error := none }

/-! ## Helper lemmas -/

/-- `v || 0` on a JavaScript number is the number itself. -/
theorem jsOr_zero (v : ℚ) : jsOr v 0 = v := by
  unfold jsOr; split <;> simp_all

/-- The `|| 1` fallback of the gesture snapshot never produces zero. -/
theorem jsOr_one_ne_zero (v : ℚ) : jsOr v 1 ≠ 0 := by
  unfold jsOr; split <;> simp_all

/-! ## Claims -/

/-- C1: for every rectangle-kind layer on which a resize gesture starts
with the snapshot taken by `handleTransformStart` (width `W`, height `H`,
scale `(sx, sy)`) and ends with the gesture node reporting scale
`(sx', sy')`, the transform-end handler persists
`width = |W * sx' / sx|` and `height = |H * sy' / sy|` into the layer,
and persists `scaleX = 1` and `scaleY = 1`. -/
theorem rect_resize_persists_absolute_dimensions (l : Layer) (node : NodeState)
    (hrect : l.type = LayerKind.rect) :
    (applyUpdate l (handleTransformEnd l (some (handleTransformStart l)) node)).width
      = some |(handleTransformStart l).width.getD 0 * node.scaleX
                / (handleTransformStart l).scaleX| ∧
    (applyUpdate l (handleTransformEnd l (some (handleTransformStart l)) node)).height
      = some |(handleTransformStart l).height.getD 0 * node.scaleY
                / (handleTransformStart l).scaleY| ∧
    (applyUpdate l (handleTransformEnd l (some (handleTransformStart l)) node)).scaleX = 1 ∧
    (applyUpdate l (handleTransformEnd l (some (handleTransformStart l)) node)).scaleY = 1 := by
  simp [handleTransformEnd, handleTransformStart, applyUpdate, hrect, mul_div_assoc]

/-- Witness for C1 at a concrete 200 by 100 rectangle resized from scale
1 to scale (3, 1/2). -/
theorem rect_resize_persists_absolute_dimensions_witness :
    let l : Layer := { defaultLayer with
      type := LayerKind.rect
      width := some 200
      height := some 100 }
    let node : NodeState := { x := 5, y := 7, rotation := 30, scaleX := 3, scaleY := 1/2 }
    l.type = LayerKind.rect ∧
    ((applyUpdate l (handleTransformEnd l (some (handleTransformStart l)) node)).width
      = some |(handleTransformStart l).width.getD 0 * node.scaleX
                / (handleTransformStart l).scaleX| ∧
     (applyUpdate l (handleTransformEnd l (some (handleTransformStart l)) node)).height
      = some |(handleTransformStart l).height.getD 0 * node.scaleY
                / (handleTransformStart l).scaleY| ∧
     (applyUpdate l (handleTransformEnd l (some (handleTransformStart l)) node)).scaleX = 1 ∧
     (applyUpdate l (handleTransformEnd l (some (handleTransformStart l)) node)).scaleY = 1) :=
  ⟨by decide, rect_resize_persists_absolute_dimensions _ _ (by decide)⟩

/-- C6: for every non-rectangle layer kind (whatever snapshot the gesture
took), ending a resize/rotate gesture persists the node's reported x, y,
rotation, scaleX and scaleY verbatim and leaves every other field — in
particular the intrinsic size fields width, height, radius, point count,
inner/outer radius and points — unchanged. -/
theorem nonrect_resize_persists_scale_verbatim (l : Layer)
    (snap : Option TransformStartData) (node : NodeState)
    (h : l.type ≠ LayerKind.rect) :
    applyUpdate l (handleTransformEnd l snap node)
      = { l with x := node.x, y := node.y, rotation := node.rotation,
                 scaleX := node.scaleX, scaleY := node.scaleY } := by
  simp [handleTransformEnd, scaleUpdate, applyUpdate, h]

/-- Witness for C6 at a concrete circle layer. -/
theorem nonrect_resize_persists_scale_verbatim_witness :
    let l : Layer := { defaultLayer with
      type := LayerKind.circle
      radius := some 40 }
    let node : NodeState := { x := 1, y := 2, rotation := 45, scaleX := 2, scaleY := 3 }
    l.type ≠ LayerKind.rect ∧
    applyUpdate l (handleTransformEnd l none node)
      = { l with x := node.x, y := node.y, rotation := node.rotation,
                 scaleX := node.scaleX, scaleY := node.scaleY } :=
  ⟨by decide, nonrect_resize_persists_scale_verbatim _ none _ (by decide)⟩

/-- C7: for every layer, ending a drag gesture persists exactly the
node's final absolute position into x and y; every other persisted field
of the layer is unchanged. -/
theorem drag_end_persists_position_only (l : Layer) (node : NodeState) :
    applyUpdate l (handleDragEnd node) = { l with x := node.x, y := node.y } := by
  simp [handleDragEnd, applyUpdate]

/-- C5: for every line layer with point pairs `[p0, p1, p2, p3]`,
dragging the start endpoint handle to absolute position `(hx, hy)`
updates only indices 0 and 1 (set to the handle position minus the layer
position) and keeps indices 2 and 3; dragging the end handle updates only
indices 2 and 3 and keeps 0 and 1; applying either update changes no
other layer field. -/
theorem line_endpoint_drag_updates_only_its_pair (l : Layer)
    (hx hy p0 p1 p2 p3 : ℚ)
    (hline : l.type = LayerKind.line)
    (hpts : l.points = some [p0, p1, p2, p3]) :
    startHandleDragMove l hx hy
      = some { points := some [hx - l.x, hy - l.y, p2, p3] } ∧
    endHandleDragMove l hx hy
      = some { points := some [p0, p1, hx - l.x, hy - l.y] } ∧
    applyUpdate l { points := some [hx - l.x, hy - l.y, p2, p3] }
      = { l with points := some [hx - l.x, hy - l.y, p2, p3] } ∧
    applyUpdate l { points := some [p0, p1, hx - l.x, hy - l.y] }
      = { l with points := some [p0, p1, hx - l.x, hy - l.y] } := by
  refine ⟨?_, ?_, ?_, ?_⟩ <;>
    simp [startHandleDragMove, endHandleDragMove, applyUpdate, hline, hpts,
          jsOr_zero]

/-- Witness for C5 at a concrete line layer. -/
theorem line_endpoint_drag_updates_only_its_pair_witness :
    let l : Layer := { defaultLayer with
      type := LayerKind.line
      x := 10
      y := 20
      points := some [0, 0, 50, 60] }
    l.type = LayerKind.line ∧ l.points = some [0, 0, 50, 60] ∧
    (startHandleDragMove l 15 27
      = some { points := some [15 - l.x, 27 - l.y, 50, 60] } ∧
     endHandleDragMove l 15 27
      = some { points := some [0, 0, 15 - l.x, 27 - l.y] } ∧
     applyUpdate l { points := some [15 - l.x, 27 - l.y, 50, 60] }
      = { l with points := some [15 - l.x, 27 - l.y, 50, 60] } ∧
     applyUpdate l { points := some [0, 0, 15 - l.x, 27 - l.y] }
      = { l with points := some [0, 0, 15 - l.x, 27 - l.y] }) :=
  ⟨by decide, by decide,
   line_endpoint_drag_updates_only_its_pair _ 15 27 0 0 50 60 (by decide) (by decide)⟩

/-- C3: the compositor draws the layer sequence in the reverse of its
stored (most-recent-first) order: the draw list has one draw per stored
layer, the i-th draw is the (n-1-i)-th stored layer, so the first draw
(back-most) is the oldest (last stored) layer and the last draw
(front-most) is the most recently added (first stored) layer; the full
paint sequence wraps the reversed stack between the masked base fill and
a second template mask. -/
theorem compositor_renders_reverse_of_stored_order (p : ProjectFile) (i : ℕ)
    (hi : i < p.layers.length) :
    (renderLayerOps p.layers).length = p.layers.length ∧
    (renderLayerOps p.layers)[i]?
      = (p.layers[p.layers.length - 1 - i]?).map DrawOp.drawLayer ∧
    (renderLayerOps p.layers).head? = (p.layers.getLast?).map DrawOp.drawLayer ∧
    (renderLayerOps p.layers).getLast? = (p.layers.head?).map DrawOp.drawLayer ∧
    compositeOps p = [DrawOp.baseFill p.baseColor, DrawOp.maskTemplate]
      ++ renderLayerOps p.layers ++ [DrawOp.maskTemplate] := by
  refine ⟨by simp [renderLayerOps], ?_, ?_, ?_, rfl⟩
  · rw [renderLayerOps, List.getElem?_map, List.getElem?_reverse hi]
  · simp [renderLayerOps, List.head?_reverse]
  · simp [renderLayerOps, ← List.map_reverse]

/-- Witness for C3 on a concrete two-layer project at draw index 0. -/
theorem compositor_renders_reverse_of_stored_order_witness :
    let newest : Layer := { defaultLayer with id := "newest" }
    let oldest : Layer := { defaultLayer with id := "oldest" }
    let p : ProjectFile := { version := "2.0", name := "demo", createdAt := "t0",
                             modelId := "model-3", baseColor := "#FF0000",
                             layers := [newest, oldest] }
    0 < p.layers.length ∧
    ((renderLayerOps p.layers).length = p.layers.length ∧
     (renderLayerOps p.layers)[0]?
       = (p.layers[p.layers.length - 1 - 0]?).map DrawOp.drawLayer ∧
     (renderLayerOps p.layers).head? = (p.layers.getLast?).map DrawOp.drawLayer ∧
     (renderLayerOps p.layers).getLast? = (p.layers.head?).map DrawOp.drawLayer ∧
     compositeOps p = [DrawOp.baseFill p.baseColor, DrawOp.maskTemplate]
       ++ renderLayerOps p.layers ++ [DrawOp.maskTemplate]) :=
  ⟨by decide, compositor_renders_reverse_of_stored_order _ 0 (by decide)⟩

/-- C4: wherever the template alpha is zero (outside the template's
opaque region), the composited pixel has alpha zero — whatever the
per-layer rasterizer drew and wherever each layer was dragged or scaled —
because both the base fill and the whole layer stack are gated by the
template alpha with `destination-in`. -/
theorem template_mask_confines_all_content
    (draw : Layer → Point → RGBA) (p : ProjectFile) (baseColor : RGBA)
    (tmplAlpha : Point → ℚ) (pt : Point) (h : tmplAlpha pt = 0) :
    (compositePixel draw p baseColor tmplAlpha pt).a = 0 := by
  simp [compositePixel, renderMaskedStack, renderMaskedBase, destIn, srcOver, h]

/-- Witness for C4: an opaque red rasterizer on every layer of a
one-layer project, at a point where the template is transparent. -/
theorem template_mask_confines_all_content_witness :
    let draw : Layer → Point → RGBA := fun _ _ => { r := 1, g := 0, b := 0, a := 1 }
    let p : ProjectFile := { version := "2.0", name := "demo", createdAt := "t0",
                             modelId := "model-3", baseColor := "#FF0000",
                             layers := [defaultLayer] }
    let tmplAlpha : Point → ℚ := fun _ => 0
    let pt : Point := ((2000 : ℚ), (0 : ℚ))
    tmplAlpha pt = 0 ∧
    (compositePixel draw p { r := 1, g := 0, b := 0, a := 1 } tmplAlpha pt).a = 0 :=
  ⟨rfl, template_mask_confines_all_content _ _ _ _ _ rfl⟩

/-- Restoring the recorded visibilities undoes the hiding pass exactly. -/
theorem restoreFrom_hideFrom (P : ℕ → KNode → Bool) (xs : List KNode) :
    ∀ i, restoreFrom P i (hideFrom P i xs) xs = xs := by
  induction xs with
  | nil => intro i; rfl
  | cons x xs ih =>
      intro i
      by_cases h : P i x
      · cases x
        simp [hideFrom, restoreFrom, h, ih]
      · simp [hideFrom, restoreFrom, h, ih]

/-- Pointwise description of the hiding pass. -/
theorem hideFrom_getElem? (P : ℕ → KNode → Bool) (xs : List KNode) :
    ∀ i k, (hideFrom P i xs)[k]?
      = (xs[k]?).map (fun o => if P (i + k) o then { o with visible := false } else o) := by
  induction xs with
  | nil => intro i k; simp [hideFrom]
  | cons x xs ih =>
      intro i k
      cases k with
      | zero => simp [hideFrom]
      | succ k =>
          have hik : i + (k + 1) = (i + 1) + k := by omega
          simp [hideFrom, ih (i + 1) k, hik]

/-- Every brush-cursor indicator group of the hidden stage is invisible:
either the node was hidden by the pass, or it already failed the
brush-cursor predicate (which the pass always includes). -/
theorem hideFrom_brush_invisible (stage xs : List KNode) :
    ∀ (i : ℕ) (n : KNode), n ∈ hideFrom (hiddenForExport stage) i xs →
      isBrushCursorGroup n = true → n.visible = false := by
  induction xs with
  | nil => intro i n hn; simp [hideFrom] at hn
  | cons x xs ih =>
      intro i n hn hb
      simp only [hideFrom, List.mem_cons] at hn
      rcases hn with hn | hn
      · by_cases h : hiddenForExport stage i x = true
        · subst hn; simp [h]
        · subst hn
          rw [if_neg (by simp [h])] at hb ⊢
          exact absurd (by simp [hiddenForExport, hb]) h
      · exact ih (i + 1) n hn hb

/-- C8: export capture takes its raster from a stage in which the matched
transformer node and every brush-cursor indicator group are invisible,
uses a fixed pixel ratio of 1 and the `image/png` mime type, and the
stage handed back after the capture equals the original stage exactly —
every hidden node's visibility is restored to its pre-capture value. -/
theorem export_capture_clean_and_side_effect_free (stage : List KNode) :
    (exportPngAsDataUrl stage).1.pixelRatio = 1 ∧
    (exportPngAsDataUrl stage).1.mimeType = "image/png" ∧
    (exportPngAsDataUrl stage).2 = stage ∧
    (∀ n ∈ (exportPngAsDataUrl stage).1.stage,
        isBrushCursorGroup n = true → n.visible = false) ∧
    (∀ i, stage.findIdx? (fun m => m.className = "Transformer") = some i →
        ((exportPngAsDataUrl stage).1.stage)[i]?
          = (stage[i]?).map (fun o => { o with visible := false })) := by
  refine ⟨rfl, rfl, restoreFrom_hideFrom _ stage 0, ?_, ?_⟩
  · intro n hn hb
    exact hideFrom_brush_invisible stage stage 0 n hn hb
  · intro i hfi
    show (hideFrom (hiddenForExport stage) 0 stage)[i]? = _
    rw [hideFrom_getElem? (hiddenForExport stage) stage 0 i]
    cases hsi : stage[i]? with
    | none => rfl
    | some o =>
        have hP : hiddenForExport stage i o = true := by
          simp [hiddenForExport, hfi]
        simp [hP]

/-- Witness for C8 on a concrete stage holding a transformer, a
brush-cursor group and an ordinary group. -/
theorem export_capture_clean_and_side_effect_free_witness :
    let tr : KNode := { className := "Transformer", listening := true,
                        visible := true, childClasses := [] }
    let cursor : KNode := { className := "Group", listening := false,
                            visible := true, childClasses := ["Circle", "Circle"] }
    let art : KNode := { className := "Group", listening := true,
                         visible := true, childClasses := ["Rect"] }
    let stage := [art, tr, cursor]
    ((exportPngAsDataUrl stage).1.pixelRatio = 1 ∧
     (exportPngAsDataUrl stage).1.mimeType = "image/png" ∧
     (exportPngAsDataUrl stage).2 = stage) ∧
    stage.findIdx? (fun m => m.className = "Transformer") = some 1 ∧
    ((exportPngAsDataUrl stage).1.stage)[1]?
      = (stage[1]?).map (fun o => { o with visible := false }) := by
  intro tr cursor art stage
  have h := export_capture_clean_and_side_effect_free stage
  exact ⟨⟨h.1, h.2.1, h.2.2.1⟩, by decide, h.2.2.2.2 1 (by decide)⟩

/-- A layer with an embedded `src` is an image or texture layer, hence
not a fill layer. -/
theorem fillEmbedded_eq_false_of_srcEmbedded (l : Layer)
    (h : srcEmbedded l = true) : fillEmbedded l = false := by
  cases htype : l.type <;> simp_all [srcEmbedded, fillEmbedded, htype]

/-- A layer with an embedded fill raster is a fill layer, hence not an
image or texture layer. -/
theorem srcEmbedded_eq_false_of_fillEmbedded (l : Layer)
    (h : fillEmbedded l = true) : srcEmbedded l = false := by
  cases htype : l.type <;> simp_all [srcEmbedded, fillEmbedded, htype]

/-- The shallow copy built by the serializer differs from the original
layer at most in the two raster-holding fields. -/
theorem cleanLayer_changes_only_raster_fields (l : Layer) :
    { cleanLayer l with src := l.src, fillImageDataUrl := l.fillImageDataUrl } = l := by
  cases l
  simp only [cleanLayer]
  split <;> split <;> rfl

/-- Under pairwise-distinct generated paths, writing the queued rasters
into the `images/` folder appends one file per raster in queue order. -/
theorem foldl_zipAddFile_eq_map (images : List ExtractedImage) :
    ∀ acc : List (String × List ℕ),
      (images.map ExtractedImage.filename).Nodup →
      (∀ img ∈ images, ∀ f ∈ acc, f.1 ≠ img.filename) →
      images.foldl (fun files img =>
          zipAddFile files img.filename (dataUrlToUint8Array img.dataUrl)) acc
        = acc ++ images.map (fun img => (img.filename, dataUrlToUint8Array img.dataUrl)) := by
  induction images with
  | nil => intro acc _ _; simp
  | cons img rest ih =>
      intro acc hnd hdisj
      have hstep : zipAddFile acc img.filename (dataUrlToUint8Array img.dataUrl)
          = acc ++ [(img.filename, dataUrlToUint8Array img.dataUrl)] := by
        unfold zipAddFile
        rw [if_neg]
        intro hany
        rw [List.any_eq_true] at hany
        obtain ⟨f, hf, hfe⟩ := hany
        exact hdisj img (List.mem_cons_self img rest) f hf (by simpa using hfe)
      have hnd2 : (rest.map ExtractedImage.filename).Nodup :=
        (List.nodup_cons.mp (by simpa using hnd)).2
      have hnotin : img.filename ∉ rest.map ExtractedImage.filename :=
        (List.nodup_cons.mp (by simpa using hnd)).1
      have hdisj2 : ∀ im ∈ rest,
          ∀ f ∈ acc ++ [(img.filename, dataUrlToUint8Array img.dataUrl)],
            f.1 ≠ im.filename := by
        intro im him f hf
        rcases List.mem_append.mp hf with hfa | hfs
        · exact hdisj im (List.mem_cons_of_mem _ him) f hfa
        · rw [List.mem_singleton.mp hfs]
          intro hcontra
          apply hnotin
          have hfe : img.filename = im.filename := hcontra
          rw [hfe]
          exact List.mem_map_of_mem ExtractedImage.filename him
      rw [List.foldl_cons, hstep, ih _ hnd2 hdisj2, List.append_assoc,
          List.singleton_append, List.map_cons]

/-- An embedded image/texture raster appears in the serializer's queue. -/
theorem src_mem_extractImages (layers : List Layer) (l : Layer)
    (hl : l ∈ layers) (he : srcEmbedded l = true) :
    ({ layerId := l.id, dataUrl := l.src.getD "", filename := srcFilename l }
      : ExtractedImage) ∈ extractImages layers := by
  unfold extractImages
  rw [List.mem_flatMap]
  exact ⟨l, hl, by simp [he]⟩

/-- An embedded fill raster appears in the serializer's queue. -/
theorem fill_mem_extractImages (layers : List Layer) (l : Layer)
    (hl : l ∈ layers) (he : fillEmbedded l = true) :
    ({ layerId := l.id, dataUrl := l.fillImageDataUrl.getD "",
       filename := fillFilename l } : ExtractedImage) ∈ extractImages layers := by
  unfold extractImages
  rw [List.mem_flatMap]
  exact ⟨l, hl, by simp [he, srcEmbedded_eq_false_of_fillEmbedded l he]⟩

/-- C2: the manifest carries the layer list in order, each entry a copy
of the original layer whose raster-holding field is replaced by the
generated relative path exactly when the field held a `data:` URL
(`images/<id>.png` for image/texture sources, `images/fill-<id>.png` for
fill rasters) and is otherwise untouched; every other field of every
layer is carried unchanged; and (when the generated paths are pairwise
distinct) the archive holds, at each generated path, the base64-decoded
bytes of the original embedded data. -/
theorem serializer_externalizes_embedded_rasters (project : ProjectFile)
    (now : String) (i : ℕ) (l : Layer)
    (hfn : ((extractImages project.layers).map ExtractedImage.filename).Nodup)
    (hl : project.layers[i]? = some l) :
    ((projectToBlob project now).manifest.layers)[i]? = some (cleanLayer l) ∧
    (projectToBlob project now).manifest.layers.length = project.layers.length ∧
    (srcEmbedded l = true → (cleanLayer l).src = some (srcFilename l)) ∧
    (srcEmbedded l = false → (cleanLayer l).src = l.src) ∧
    (fillEmbedded l = true →
      (cleanLayer l).fillImageDataUrl = some (fillFilename l)) ∧
    (fillEmbedded l = false →
      (cleanLayer l).fillImageDataUrl = l.fillImageDataUrl) ∧
    (srcEmbedded l = true →
      (srcFilename l, dataUrlToUint8Array (l.src.getD ""))
        ∈ (projectToBlob project now).imageFiles) ∧
    (fillEmbedded l = true →
      (fillFilename l, dataUrlToUint8Array (l.fillImageDataUrl.getD ""))
        ∈ (projectToBlob project now).imageFiles) ∧
    { cleanLayer l with src := l.src, fillImageDataUrl := l.fillImageDataUrl } = l := by
  have hmem : l ∈ project.layers := List.getElem?_mem hl
  have himg : (projectToBlob project now).imageFiles
      = (extractImages project.layers).map
          (fun img => (img.filename, dataUrlToUint8Array img.dataUrl)) := by
    show (extractImages project.layers).foldl _ [] = _
    rw [foldl_zipAddFile_eq_map _ [] hfn (by intro img _ f hf; simp at hf)]
    simp
  refine ⟨?_, ?_, ?_, ?_, ?_, ?_, ?_, ?_, cleanLayer_changes_only_raster_fields l⟩
  · show (project.layers.map cleanLayer)[i]? = _
    rw [List.getElem?_map, hl]
    rfl
  · show (project.layers.map cleanLayer).length = _
    simp
  · intro he
    unfold cleanLayer
    rw [if_pos he, fillEmbedded_eq_false_of_srcEmbedded l he]
    simp
  · intro he
    unfold cleanLayer
    rw [if_neg (show ¬ srcEmbedded l = true by simp [he])]
    split <;> rfl
  · intro he
    unfold cleanLayer
    rw [if_neg (show ¬ srcEmbedded l = true by
          simp [srcEmbedded_eq_false_of_fillEmbedded l he]),
        if_pos he]
  · intro he
    unfold cleanLayer
    rw [if_neg (show ¬ fillEmbedded l = true by simp [he])]
    split <;> rfl
  · intro he
    rw [himg]
    exact List.mem_map_of_mem _ (src_mem_extractImages _ l hmem he)
  · intro he
    rw [himg]
    exact List.mem_map_of_mem _ (fill_mem_extractImages _ l hmem he)

/-- Witness for C2 on a concrete project with an embedded image layer
(whose `data:` URL decodes to the bytes 0, 1, 2) and an embedded fill
layer, at index 0. -/
theorem serializer_externalizes_embedded_rasters_witness :
    let img : Layer := { defaultLayer with
      id := "L1"
      type := LayerKind.image
      src := some "data:image/png;base64,AAEC" }
    let fl : Layer := { defaultLayer with
      id := "L2"
      type := LayerKind.fill
      fillImageDataUrl := some "data:image/png;base64,AAEC" }
    let p : ProjectFile := { version := "2.0", name := "demo", createdAt := "t0",
                             modelId := "model-3", baseColor := "#FF0000",
                             layers := [img, fl] }
    ((extractImages p.layers).map ExtractedImage.filename).Nodup ∧
    p.layers[0]? = some img ∧
    (((projectToBlob p "t1").manifest.layers)[0]? = some (cleanLayer img) ∧
     (projectToBlob p "t1").manifest.layers.length = p.layers.length ∧
     (srcEmbedded img = true → (cleanLayer img).src = some (srcFilename img)) ∧
     (srcEmbedded img = false → (cleanLayer img).src = img.src) ∧
     (fillEmbedded img = true →
       (cleanLayer img).fillImageDataUrl = some (fillFilename img)) ∧
     (fillEmbedded img = false →
       (cleanLayer img).fillImageDataUrl = img.fillImageDataUrl) ∧
     (srcEmbedded img = true →
       (srcFilename img, dataUrlToUint8Array (img.src.getD ""))
         ∈ (projectToBlob p "t1").imageFiles) ∧
     (fillEmbedded img = true →
       (fillFilename img, dataUrlToUint8Array (img.fillImageDataUrl.getD ""))
         ∈ (projectToBlob p "t1").imageFiles) ∧
     { cleanLayer img with
         src := img.src
         fillImageDataUrl := img.fillImageDataUrl } = img) := by
  refine ⟨by decide, by decide, ?_⟩
  exact serializer_externalizes_embedded_rasters _ "t1" 0 _ (by decide) (by decide)

/-- C10: `projectToBlob` is side-effect-free on its input.  In the heap
view, running the serializer's layer pass only allocates fresh copies at
the end of the heap: every object present before the call — the project
object, its layer array entries and every field of every layer, `src` and
`fillImageDataUrl` included — holds exactly its original value afterwards,
because the path substitution is performed on the shallow copies placed
in the manifest. -/
theorem serialization_leaves_input_untouched (heap : List Layer)
    (addrs : List ℕ) :
    (projectToBlobAlloc heap addrs).1.take heap.length = heap ∧
    heap.length ≤ (projectToBlobAlloc heap addrs).1.length := by
  induction addrs generalizing heap with
  | nil => exact ⟨by simp [projectToBlobAlloc], by simp [projectToBlobAlloc]⟩
  | cons addr rest ih =>
      have hstep : (projectToBlobAlloc heap (addr :: rest)).1
          = (projectToBlobAlloc
              (heap ++ [cleanLayer (heap.getD addr defaultLayer)]) rest).1 := rfl
      obtain ⟨htake, hlen⟩ := ih (heap ++ [cleanLayer (heap.getD addr defaultLayer)])
      constructor
      · rw [hstep]
        have hle : heap.length ≤ (heap ++ [cleanLayer (heap.getD addr defaultLayer)]).length := by
          simp
        calc (projectToBlobAlloc (heap ++ [cleanLayer (heap.getD addr defaultLayer)]) rest).1.take heap.length
            = ((projectToBlobAlloc (heap ++ [cleanLayer (heap.getD addr defaultLayer)]) rest).1.take
                (heap ++ [cleanLayer (heap.getD addr defaultLayer)]).length).take heap.length := by
              rw [List.take_take, Nat.min_eq_left hle]
          _ = (heap ++ [cleanLayer (heap.getD addr defaultLayer)]).take heap.length := by
              rw [htake]
          _ = heap := by rw [List.take_left]
      · rw [hstep]
        calc heap.length ≤ (heap ++ [cleanLayer (heap.getD addr defaultLayer)]).length := by simp
          _ ≤ _ := hlen

/-- C9: `publishDesign` never propagates a failure: each failing step —
unconfigured storage client, a thrown fetch/conversion exception, a
preview-upload error, a project-upload error or a database-insert
error — yields a returned result pairing the underlying error value with
an empty design identifier, and the all-steps-succeed run returns the
freshly generated identifier with a null error. -/
theorem publish_returns_errors_never_throws (env : PublishEnv) :
    (env.supabaseConfigured = false →
      publishDesign env = { designId := "", error := some "Supabase not configured" }) ∧
    (∀ e, env.supabaseConfigured = true → env.fetchPreviewThrows = some e →
      publishDesign env = { designId := "", error := some e }) ∧
    (∀ e, env.supabaseConfigured = true → env.fetchPreviewThrows = none →
      env.previewUploadError = some e →
      publishDesign env = { designId := "", error := some e }) ∧
    (∀ e, env.supabaseConfigured = true → env.fetchPreviewThrows = none →
      env.previewUploadError = none → env.projectUploadError = some e →
      publishDesign env = { designId := "", error := some e }) ∧
    (∀ e, env.supabaseConfigured = true → env.fetchPreviewThrows = none →
      env.previewUploadError = none → env.projectUploadError = none →
      env.dbInsertError = some e →
      publishDesign env = { designId := "", error := some e }) ∧
    (env.supabaseConfigured = true → env.fetchPreviewThrows = none →
      env.previewUploadError = none → env.projectUploadError = none →
      env.dbInsertError = none →
      publishDesign env = { designId := env.uuid, error := none }) := by
  refine ⟨?_, ?_, ?_, ?_, ?_, ?_⟩
  · intro h1; simp [publishDesign, h1]
  · intro e h1 h2; simp [publishDesign, h1, h2]
  · intro e h1 h2 h3; simp [publishDesign, h1, h2, h3]
  · intro e h1 h2 h3 h4; simp [publishDesign, h1, h2, h3, h4]
  · intro e h1 h2 h3 h4 h5; simp [publishDesign, h1, h2, h3, h4, h5]
  · intro h1 h2 h3 h4 h5; simp [publishDesign, h1, h2, h3, h4, h5]

/-- Witness for C9: a run whose project-file upload fails returns that
error with an empty id, and a fully successful run returns the generated
identifier with no error. -/
theorem publish_returns_errors_never_throws_witness :
    let bad : PublishEnv := { supabaseConfigured := true, uuid := "uuid-1",
                              fetchPreviewThrows := none,
                              previewUploadError := none,
                              projectUploadError := some "upload failed",
                              publicUrl := "https://x/preview.png",
                              dbInsertError := none }
    let good : PublishEnv := { bad with projectUploadError := none }
    (bad.supabaseConfigured = true ∧ bad.fetchPreviewThrows = none ∧
     bad.previewUploadError = none ∧ bad.projectUploadError = some "upload failed" ∧
     publishDesign bad = { designId := "", error := some "upload failed" }) ∧
    (good.dbInsertError = none ∧
     publishDesign good = { designId := good.uuid, error := none }) := by
  intro bad good
  refine ⟨⟨rfl, rfl, rfl, rfl, ?_⟩, ⟨rfl, ?_⟩⟩
  · exact (publish_returns_errors_never_throws bad).2.2.2.1 "upload failed"
      rfl rfl rfl rfl
  · exact (publish_returns_errors_never_throws good).2.2.2.2.2
      rfl rfl rfl rfl rfl

end WrapStudio
